import Mathlib

/-!
Verification development for the W3-Scrapper repository (`src/base.py`,
`src/endpoints.py`).

The HTML documents handled by the scraper are modelled as a tree of tags and
text nodes (`Node`), and the BeautifulSoup operations the code relies on
(`.text`, `find`, `find_all`, `find_next_sibling`, attribute and class
access) are given executable definitions.  Methods of the `Base` class are
embedded as pure functions over an explicit `BaseState`; the network is an
explicit stream of attempt outcomes, and the two external collaborators
(`imgkit` rendering, `html_to_json.convert_tables`) are oracle parameters.
-/

/-- A parsed HTML node: an element with a tag name, attributes and children,
or a navigable string. -/
inductive Node where
  | tag (name : String) (attrs : List (String × String)) (children : List Node)
  | txt (s : String)

/-- The tag name of an element; `none` for a navigable string. -/
def Node.name : Node → Option String
  | .tag nm _ _ => some nm
  | .txt _ => none

/-- Attribute lookup in an attribute list (first match, as in a dict built
left to right). -/
def attrs_lookup : List (String × String) → String → Option String
  | [], _ => none
  | (k, v) :: rest, key => if k = key then some v else attrs_lookup rest key

/-- Models `element[key]` / `element.get(key)`: attribute access on a tag. -/
def get_attr (n : Node) (key : String) : Option String :=
  match n with
  | .txt _ => none
  | .tag _ attrs _ => attrs_lookup attrs key

/-- Models `element.has_attr(key)`. -/
def has_attr (n : Node) (key : String) : Bool :=
  (get_attr n key).isSome

/-- Python `str.strip()` on the character list: drop leading and trailing
whitespace. -/
def trim_chars (l : List Char) : List Char :=
  ((l.dropWhile Char.isWhitespace).reverse.dropWhile Char.isWhitespace).reverse

/-- Python `str.strip()`.  (A structural reimplementation is used instead of
`String.trim` so that closed instances evaluate inside the kernel.) -/
def py_strip (s : String) : String :=
  ⟨trim_chars s.data⟩

/-- If `pat` is a prefix of the list, return the remainder after it. -/
def strip_pref : List Char → List Char → Option (List Char)
  | [], rest => some rest
  | _ :: _, [] => none
  | p :: ps, c :: cs => if c == p then strip_pref ps cs else none

/-- Python `str.replace`: replace every non-overlapping occurrence of `pat`,
scanning left to right.  Structured on fuel so the kernel can evaluate it;
one unit of fuel per examined position, so `fuel = length of the input`
suffices whenever `pat` is nonempty (it always is in this code). -/
def replace_go (pat rep : List Char) : Nat → List Char → List Char
  | _, [] => []
  | 0, l => l
  | fuel + 1, c :: cs =>
    match strip_pref pat (c :: cs) with
    | some rest => rep ++ replace_go pat rep fuel rest
    | none => c :: replace_go pat rep fuel cs

/-- Python `str.replace` on strings. -/
def py_replace (s pat rep : String) : String :=
  ⟨replace_go pat.data rep.data s.data.length s.data⟩

/-- Python whitespace split (`str.split()` with no argument): maximal runs
of non-whitespace characters; no empty pieces. -/
def split_ws_go (acc : List Char) : List Char → List (List Char)
  | [] => if acc.isEmpty then [] else [acc.reverse]
  | c :: cs =>
    if c.isWhitespace then
      if acc.isEmpty then split_ws_go [] cs else acc.reverse :: split_ws_go [] cs
    else split_ws_go (c :: acc) cs

/-- Is `pat` a prefix of the list? -/
def starts_with_chars : List Char → List Char → Bool
  | [], _ => true
  | _ :: _, [] => false
  | p :: ps, c :: cs => c == p && starts_with_chars ps cs

/-- Does `pat` occur as a contiguous sublist? -/
def contains_sub (pat : List Char) : List Char → Bool
  | [] => pat.isEmpty
  | c :: cs => starts_with_chars pat (c :: cs) || contains_sub pat cs

/-- Python `needle in haystack` substring test. -/
def contains_str (haystack needle : String) : Bool :=
  contains_sub needle.data haystack.data

/-- bs4 treats `class` as a multi-valued attribute: the raw string split on
whitespace (empty pieces dropped, as Python `str.split()` does). -/
def class_list (n : Node) : List String :=
  match get_attr n "class" with
  | some v => (split_ws_go [] v.data).map (fun l => (⟨l⟩ : String))
  | none => []

/-- bs4 matching for a `{"class": value}` filter: the filter matches when it
equals one of the element classes, or when it equals the complete raw
`class` string (the bs4 exact-string fallback, used by the code for the
two-class button filters such as "w3-right w3-btn"). -/
def matches_class_filter (n : Node) (filter : String) : Bool :=
  get_attr n "class" == some filter || (class_list n).contains filter

mutual

/-- Models `element.text`: concatenation of every descendant string, in document
order. -/
def Node.text : Node → String
  | .txt s => s
  | .tag _ _ cs => text_of_list cs

def text_of_list : List Node → String
  | [] => ""
  | c :: cs => Node.text c ++ text_of_list cs

end

mutual

/-- Models `element.find(p)`: the first descendant (document pre-order, the element
itself excluded) satisfying `p`. -/
def find_desc (p : Node → Bool) : Node → Option Node
  | .txt _ => none
  | .tag _ _ cs => find_desc_list p cs

def find_desc_list (p : Node → Bool) : List Node → Option Node
  | [] => none
  | c :: cs =>
    if p c then some c
    else
      match find_desc p c with
      | some r => some r
      | none => find_desc_list p cs

end

mutual

/-- Models `element.find_all(p)`: every descendant satisfying `p`, in document
pre-order. -/
def find_all_desc (p : Node → Bool) : Node → List Node
  | .txt _ => []
  | .tag _ _ cs => find_all_desc_list p cs

def find_all_desc_list (p : Node → Bool) : List Node → List Node
  | [] => []
  | c :: cs =>
    (if p c then [c] else []) ++ find_all_desc p c ++ find_all_desc_list p cs

end

/-- Attribute rendering for the HTML serializer. -/
def render_attrs : List (String × String) → String
  | [] => ""
  | (k, v) :: rest => " " ++ k ++ "=\"" ++ v ++ "\"" ++ render_attrs rest

mutual

/-- Models `str(element)`: a plain HTML serialization (entity escaping, which the
code never depends on, is elided). -/
def Node.render : Node → String
  | .txt s => s
  | .tag nm attrs cs =>
    "<" ++ nm ++ render_attrs attrs ++ ">" ++ render_of_list cs ++ "</" ++ nm ++ ">"

def render_of_list : List Node → String
  | [] => ""
  | c :: cs => Node.render c ++ render_of_list cs

end

mutual

/-- Models `BeautifulSoup(str(element).replace("<br/>", "\n"), ...).text`
(base.py line 259): serializing, textually replacing the serialized `<br/>`
tags by newlines and re-parsing turns every `br` element into a newline in
the extracted text, and leaves all other text unchanged. -/
def text_br : Node → String
  | .txt s => s
  | .tag nm _ cs => if nm == "br" then "\n" else text_br_of_list cs

def text_br_of_list : List Node → String
  | [] => ""
  | c :: cs => text_br c ++ text_br_of_list cs

end

/-! Section: `src/endpoints.py` -/

namespace Navigator

/-- Constant `W3SchoolsNavigator.NEXT`. -/
def NEXT : String := "w3-right w3-btn"

/-- Constant `W3SchoolsNavigator.PREVIOUS`. -/
def PREVIOUS : String := "w3-left w3-btn"

/-- Constant `W3SchoolsNavigator.MAIN`. -/
def MAIN : String := "w3-main"

/-- Constant `W3SchoolsNavigator.MAIN_TG`. -/
def MAIN_TG : String := "div"

end Navigator

/-- The `EXCLUDE_TOPICS` list (endpoints.py lines 49-55).  The Python source writes
five string literals but omits the comma after "Examples", so the Python
implicit literal concatenation merges the third and fourth entries into the
single string "ExamplesReport Error"; the list therefore has four elements.
The `++` below reproduces that adjacent-literal concatenation. -/
def EXCLUDE_TOPICS : List String :=
  [ "Test Yourself With Exercises",
    "Exercise",
    "Examples" ++ "Report Error",
    "Thank You For Helping Us!" ]

/-! Section: `src/base.py` -/

/-- Models `Base.__string_parse` (base.py lines 56-59): strip leading/trailing
whitespace, then replace literal line-break markup by newlines. -/
def string_parse (s : String) : String :=
  py_replace (py_replace (py_strip s) "<br>" "\n") "<br/>" "\n"

/-- One `_payload` record of `Base.get_topic`: the mutable dict
`{"text": "", "type": ""}` optionally acquiring `url` and `file` keys. -/
structure Segment where
  text : String
  type : String
  url : Option String := none
  file : Option String := none
deriving Repr, DecidableEq

/-- The `_copy_payload` record: the untouched default each sibling payload is
compared against before being appended (base.py lines 227-228, 272). -/
def empty_payload : Segment := { text := "", type := "" }

/-- The result of `Base.get_topic`: either the empty dict `{}` returned for
excluded headers, or `{"header": ..., "rest": [...]}`. -/
inductive Topic where
  | empty
  | mk (header : String) (rest : List Segment)
deriving Repr, DecidableEq

/-- The list of segments carried by a topic (`[]` for the empty dict, which
has no "rest" key). -/
def Topic.segments : Topic → List Segment
  | .empty => []
  | .mk _ rest => rest

/-- The external table-conversion collaborator used inside the
classification loop, taken as an oracle: `str(convert_tables(str(t))[0])`
(the html_to_json table conversion serialized back to text).  The other
collaborator, `Base.to_image` (imgkit rendering), needs no oracle: the one
call site (base.py line 266) passes no `filename`, and `to_image` declares
`filename` as a required keyword-only parameter (base.py line 75), so the
call raises `TypeError` before the renderer ever runs. -/
structure Oracles where
  convert_tables_str : Node → String

/-- One network attempt: a raised `requests.ReadTimeout`/`ConnectionError`,
or a response carrying `response.ok`, `response.text` and the document that
`BeautifulSoup(response.text, ...)` parses it into. -/
inductive Attempt where
  | err
  | got (ok : Bool) (text : String) (doc : Node)

/-- The mutable attributes of a `Base` instance.  `_url` is assigned once in
`__init__` and never reassigned; `url` is the URL of the current page (mutated by
`_paginate`); `pages` is the per-instance URL→document cache; `soup` and
`main_div` start unset (Python class-level annotations without a value), so
they are `Option`s whose `none` state makes attribute access raise. -/
structure BaseState where
  _url : String
  url : String
  pages : List (String × Node)
  soup : Option Node := none
  main_div : Option Node := none
  page : Option String := none

/-- Lookup for `self.pages[u]` (dict semantics: the most recent binding wins,
which cons-then-first-match reproduces). -/
def lookup_page : List (String × Node) → String → Option Node
  | [], _ => none
  | (k, v) :: rest, u => if k = u then some v else lookup_page rest u

/-- Models `soup.prettify()`; the exact indentation bs4 produces is immaterial to
every claim, so the plain serialization stands in for it. -/
def prettify (n : Node) : String :=
  Node.render n

namespace Base

/-- The `while retry:` loop of `Base._download_page` (base.py lines
109-140).  `attempts i` is the outcome of the `i`-th `requests.get` call;
the returned `Nat` counts the network requests issued.  On an ok response
the soup is stored, the main container is looked up — its absence raises
`RuntimeError` (modelled as `Except.error`) — and the page is cached under
the current `url`.  When the retry budget is exhausted the sentinel
`"<html></html>"` is returned. -/
def download_loop (attempts : Nat → Attempt) (idx retry : Nat) (st : BaseState)
    (count : Nat) : Except String (String × BaseState × Nat) :=
  match retry with
  | 0 => .ok ("<html></html>", st, count)
  | r + 1 =>
    match attempts idx with
    | .err => download_loop attempts (idx + 1) r st (count + 1)
    | .got ok text doc =>
      if ok then
        match find_desc
            (fun n => n.name == some Navigator.MAIN_TG && matches_class_filter n Navigator.MAIN)
            doc with
        | none => .error "failed to find main div"
        | some d =>
          .ok (text,
               { st with
                 soup := some doc,
                 main_div := some d,
                 pages := (st.url, doc) :: st.pages },
               count + 1)
      else download_loop attempts (idx + 1) r st (count + 1)

/-- Models `Base._download_page` (base.py lines 108-140): five retries. -/
def _download_page (attempts : Nat → Attempt) (st : BaseState) :
    Except String (String × BaseState × Nat) :=
  download_loop attempts 0 5 st 0

/-- Models `Base.download_page` (base.py lines 98-106): consult the instance cache
for the current `url` first; a hit returns the prettified cached soup with
zero network requests, a miss falls through to `_download_page`. -/
def download_page (attempts : Nat → Attempt) (st : BaseState) :
    Except String (String × BaseState × Nat) :=
  match lookup_page st.pages st.url with
  | some cached => .ok (prettify cached, { st with soup := some cached }, 0)
  | none => _download_page attempts st

/-- Models `Base.__init__` (base.py lines 46-54): both `_url` and `url` are set to
the constructor argument, the cache starts empty, and `download_page` is run
once, its result stored in `page`. -/
def init (url : String) (attempts : Nat → Attempt) :
    Except String (BaseState × Nat) :=
  let st : BaseState :=
    { _url := url, url := url, pages := [], soup := none, main_div := none, page := none }
  match download_page attempts st with
  | .error e => .error e
  | .ok (text, st', c) => .ok ({ st' with page := some text }, c)

/-- Models `Base.get_headers` (base.py lines 190-192): `self.main_div.find_all("h2")`;
reading the never-assigned `main_div` raises `AttributeError`. -/
def get_headers (st : BaseState) : Except String (List Node) :=
  match st.main_div with
  | none => .error "AttributeError: main_div"
  | some d => .ok (find_all_desc (fun n => n.name == some "h2") d)

/-- Models `Base._get_button_endpoint` (base.py lines 152-158): find the first
anchor matching the class filter inside `main_div`; if its text contains the
button name return its `href`, else `None`. -/
def _get_button_endpoint (st : BaseState) (finder button_name : String) :
    Except String (Option String) :=
  match st.main_div with
  | none => .error "AttributeError: main_div"
  | some md =>
    match find_desc (fun n => n.name == some "a" && matches_class_filter n finder) md with
    | none => .ok none
    | some anchor =>
      if contains_str anchor.text button_name then
        match get_attr anchor "href" with
        | some href => .ok (some href)
        | none => .error "KeyError: href"
      else .ok none

/-- Models `Base.get_next_button_url` (base.py lines 142-145): the endpoint is
concatenated onto `self._url`, the original constructor-supplied base URL. -/
def get_next_button_url (st : BaseState) : Except String (Option String) :=
  match _get_button_endpoint st Navigator.NEXT "Next" with
  | .error e => .error e
  | .ok none => .ok none
  | .ok (some endpoint) => .ok (some (st._url ++ endpoint))

/-- Models `Base.get_previous_button_url` (base.py lines 147-150). -/
def get_previous_button_url (st : BaseState) : Except String (Option String) :=
  match _get_button_endpoint st Navigator.PREVIOUS "Previous" with
  | .error e => .error e
  | .ok none => .ok none
  | .ok (some endpoint) => .ok (some (st._url ++ endpoint))

/-- Models `Base._paginate` (base.py lines 168-175): a missing button raises
`RuntimeError`; otherwise `url` is reassigned and `download_page` rerun. -/
def _paginate (attempts : Nat → Attempt) (st : BaseState)
    (button_url : Except String (Option String)) :
    Except String (BaseState × Nat) :=
  match button_url with
  | .error e => .error e
  | .ok none => .error "RuntimeError: failed to get page"
  | .ok (some u) =>
    let st1 := { st with url := u }
    match download_page attempts st1 with
    | .error e => .error e
    | .ok (text, st2, c) => .ok ({ st2 with page := some text }, c)

/-- Models `Base.paginate_next` (base.py lines 160-162). -/
def paginate_next (attempts : Nat → Attempt) (st : BaseState) :
    Except String (BaseState × Nat) :=
  _paginate attempts st (get_next_button_url st)

/-- Models `Base.paginate_prev` (base.py lines 164-166). -/
def paginate_prev (attempts : Nat → Attempt) (st : BaseState) :
    Except String (BaseState × Nat) :=
  _paginate attempts st (get_previous_button_url st)

end Base

/-- Models `find_next_sibling()` with no arguments: the next sibling that is a tag
(navigable strings are skipped), together with the siblings after it.  The
input list is the chain of siblings following the current element. -/
def find_next_sibling : List Node → Option (Node × List Node)
  | [] => none
  | Node.txt _ :: rest => find_next_sibling rest
  | n :: rest => some (n, rest)

namespace Base

/-- Models `Base.get_h2_sibling` (base.py lines 194-205): the next tag sibling,
except that a horizontal rule — the topic separator — yields `None`. -/
def get_h2_sibling (following : List Node) : Option (Node × List Node) :=
  match find_next_sibling following with
  | none => none
  | some (sib, rest) => if sib.name == some "hr" then none else some (sib, rest)

/-- Models `Base._get_all_h2_siblings` (base.py lines 207-216): repeatedly take
`get_h2_sibling` until it yields `None`.  Written structurally; the lemma
`_get_all_h2_siblings_eq` below shows this equals the source loop, one
`get_h2_sibling` step at a time. -/
def _get_all_h2_siblings : List Node → List Node
  | [] => []
  | Node.txt _ :: rest => _get_all_h2_siblings rest
  | Node.tag nm attrs cs :: rest =>
    if nm == "hr" then [] else Node.tag nm attrs cs :: _get_all_h2_siblings rest

/-- The classification body of the `for sibling in siblings:` loop of
`Base.get_topic` (base.py lines 226-270), producing the `_payload` record;
`.ok none` models the `continue` taken for a `div` whose class list contains
"w3-clear".  The class-less `div` branch (lines 263-266) assigns text and
type and then calls `self.to_image(sibling)` with no `filename`; since
`filename` is a required keyword-only parameter of `to_image` (line 75),
that call raises `TypeError`, aborting the whole extraction — modelled as
`.error`. -/
def sib_payload (o : Oracles) (base_url : String) (sib : Node) :
    Except String (Option Segment) :=
  if sib.name == some "p" then
    let base : Segment := { text := string_parse sib.text, type := "p" }
    match find_desc (fun n => n.name == some "img") sib with
    | some img =>
      match get_attr img "src" with
      | some src =>
        if sib.text == "" then
          .ok (some { base with type := "img", url := some (base_url ++ src) })
        else
          .ok (some { base with type := "img" })
      | none => .ok (some base)
    | none => .ok (some base)
  else if sib.name == some "ul" then
    .ok (some { text := String.join ((find_all_desc (fun n => n.name == some "li") sib).map
                  (fun li => "\n" ++ string_parse li.text)),
                type := "ul" })
  else if sib.name == some "ol" then
    .ok (some { text := String.join ((find_all_desc (fun n => n.name == some "li") sib).map
                  (fun li => "\n" ++ string_parse li.text)),
                type := "ol" })
  else if sib.name == some "div" then
    if has_attr sib "class" && (class_list sib).contains "w3-clear" then
      .ok none
    else if has_attr sib "class" && (class_list sib).contains "w3-panel" then
      .ok (some { text := string_parse sib.text, type := "panel" })
    else if has_attr sib "class" && (class_list sib).contains "w3-example" then
      match find_desc (fun n => n.name == some "div" && matches_class_filter n "w3-code") sib with
      | some internal => .ok (some { text := string_parse (text_br internal), type := "code" })
      | none => .ok (some empty_payload)
    else if !(has_attr sib "class") then
      .error "TypeError: to_image missing required keyword-only argument filename"
    else
      .ok (some empty_payload)
  else if sib.name == some "table" then
    .ok (some { text := o.convert_tables_str sib, type := "table" })
  else
    .ok (some empty_payload)

/-- The `if _payload != _copy_payload: payload["rest"].append(_payload)`
filter (base.py lines 272-273) composed with the loop body: the segment a
sibling contributes, if any; a raised `TypeError` propagates. -/
def emit_segment (o : Oracles) (base_url : String) (sib : Node) :
    Except String (Option Segment) :=
  match sib_payload o base_url sib with
  | .error e => .error e
  | .ok none => .ok none
  | .ok (some p) => .ok (if p = empty_payload then none else some p)

/-- The whole `for sibling in siblings:` loop (base.py lines 226-273):
segments are accumulated in document order and the first raised exception
aborts the loop (and `get_topic` with it). -/
def collect_segments (o : Oracles) (base_url : String) :
    List Node → Except String (List Segment)
  | [] => .ok []
  | sib :: rest =>
    match emit_segment o base_url sib with
    | .error e => .error e
    | .ok none => collect_segments o base_url rest
    | .ok (some seg) =>
      match collect_segments o base_url rest with
      | .error e => .error e
      | .ok segs => .ok (seg :: segs)

/-- Models `Base.get_topic` (base.py lines 218-274).  `following` is the chain of
siblings after the header in document order; image URLs are built from
`self._url`.  An exception raised inside the loop (the class-less-div
`TypeError`) propagates out of `get_topic`. -/
def get_topic (o : Oracles) (st : BaseState) (header : Node) (following : List Node) :
    Except String Topic :=
  let siblings := _get_all_h2_siblings following
  if header.text ∈ EXCLUDE_TOPICS then .ok Topic.empty
  else
    match collect_segments o st._url siblings with
    | .error e => .error e
    | .ok segs => .ok (Topic.mk header.text segs)

end Base

/-! Section: helper lemmas -/

/-- The structural `_get_all_h2_siblings` agrees with the source loop: one
`get_h2_sibling` step peels off the next collected sibling. -/
theorem get_all_h2_siblings_eq (l : List Node) :
    Base._get_all_h2_siblings l =
      match Base.get_h2_sibling l with
      | none => []
      | some (sib, rest) => sib :: Base._get_all_h2_siblings rest := by
  induction l with
  | nil => rfl
  | cons hd tl ih =>
    cases hd with
    | txt s =>
      simpa [Base._get_all_h2_siblings, Base.get_h2_sibling, find_next_sibling] using ih
    | tag nm attrs cs =>
      by_cases h : nm = "hr" <;>
        simp [Base._get_all_h2_siblings, Base.get_h2_sibling, find_next_sibling, Node.name, h]

/-- Every collected sibling comes from the input chain. -/
theorem mem_of_mem_all_h2_siblings :
    ∀ (l : List Node) (n : Node), n ∈ Base._get_all_h2_siblings l → n ∈ l := by
  intro l
  induction l with
  | nil => simp [Base._get_all_h2_siblings]
  | cons hd tl ih =>
    cases hd with
    | txt s =>
      intro n hn
      simp only [Base._get_all_h2_siblings] at hn
      exact List.mem_cons_of_mem _ (ih n hn)
    | tag nm attrs cs =>
      intro n hn
      by_cases h : nm = "hr"
      · simp [Base._get_all_h2_siblings, h] at hn
      · simp only [Base._get_all_h2_siblings, beq_iff_eq, if_neg h, List.mem_cons] at hn
        rcases hn with rfl | hn
        · exact List.mem_cons_self _ _
        · exact List.mem_cons_of_mem _ (ih n hn)

/-- Sibling collection ignores everything from the first horizontal rule
on. -/
theorem all_h2_siblings_append_hr (l1 l2 : List Node) (attrs : List (String × String))
    (cs : List Node) (h : ∀ n ∈ l1, n.name ≠ some "hr") :
    Base._get_all_h2_siblings (l1 ++ Node.tag "hr" attrs cs :: l2) =
      Base._get_all_h2_siblings l1 := by
  induction l1 with
  | nil => simp [Base._get_all_h2_siblings]
  | cons hd tl ih =>
    have htl : ∀ n ∈ tl, n.name ≠ some "hr" := fun n hn => h n (List.mem_cons_of_mem _ hn)
    cases hd with
    | txt s =>
      simpa [Base._get_all_h2_siblings] using ih htl
    | tag nm a c =>
      have hnm : nm ≠ "hr" := by
        intro hcontra
        exact h (Node.tag nm a c) (List.mem_cons_self _ _) (by simp [Node.name, hcontra])
      simpa [Base._get_all_h2_siblings, hnm] using ih htl

/-- For a non-excluded header, `get_topic` is the loop result mapped into a
topic: the classification of the collected siblings, in order, with any
raised exception propagating. -/
theorem get_topic_eq (o : Oracles) (st : BaseState) {header : Node}
    (following : List Node) (h : header.text ∉ EXCLUDE_TOPICS) :
    Base.get_topic o st header following =
      (Base.collect_segments o st._url (Base._get_all_h2_siblings following)).map
        (Topic.mk header.text) := by
  simp only [Base.get_topic, if_neg h]
  cases hc : Base.collect_segments o st._url (Base._get_all_h2_siblings following) <;>
    simp [Except.map]

/-- A segment actually emitted for a sibling is never the blank default. -/
theorem emit_segment_ne_empty (o : Oracles) (u : String) (sib : Node) (seg : Segment)
    (h : Base.emit_segment o u sib = .ok (some seg)) : seg ≠ empty_payload := by
  unfold Base.emit_segment at h
  cases hp : Base.sib_payload o u sib with
  | error e => rw [hp] at h; cases h
  | ok op =>
    rw [hp] at h
    cases op with
    | none => simp at h
    | some p =>
      by_cases he : p = empty_payload
      · simp [he] at h
      · simp only [if_neg he, Except.ok.injEq, Option.some.injEq] at h
        exact h ▸ he

/-- Every segment in a successful loop result was emitted by one of the
traversed siblings. -/
theorem collect_segments_mem (o : Oracles) (u : String) :
    ∀ (l : List Node) (segs : List Segment), Base.collect_segments o u l = .ok segs →
      ∀ seg ∈ segs, ∃ sib ∈ l, Base.emit_segment o u sib = .ok (some seg) := by
  intro l
  induction l with
  | nil =>
    intro segs h seg hm
    simp only [Base.collect_segments, Except.ok.injEq] at h
    subst h
    simp at hm
  | cons hd tl ih =>
    intro segs h seg hm
    simp only [Base.collect_segments] at h
    split at h
    · cases h
    · obtain ⟨sib, hsib, hse⟩ := ih segs h seg hm
      exact ⟨sib, List.mem_cons_of_mem _ hsib, hse⟩
    · rename_i s hemit
      split at h
      · cases h
      · rename_i segs' hc
        simp only [Except.ok.injEq] at h
        subst h
        rcases List.mem_cons.mp hm with rfl | hm'
        · exact ⟨hd, List.mem_cons_self _ _, hemit⟩
        · obtain ⟨sib, hsib, hse⟩ := ih segs' hc seg hm'
          exact ⟨sib, List.mem_cons_of_mem _ hsib, hse⟩

/-- The retry loop never touches `_url` or `url`. -/
theorem download_loop_frame (attempts : Nat → Attempt) :
    ∀ (retry idx count : Nat) (st st' : BaseState) (t : String) (c : Nat),
      Base.download_loop attempts idx retry st count = .ok (t, st', c) →
      st'._url = st._url ∧ st'.url = st.url := by
  intro retry
  induction retry with
  | zero =>
    intro idx count st st' t c h
    simp only [Base.download_loop, Except.ok.injEq, Prod.mk.injEq] at h
    rw [← h.2.1]
    exact ⟨rfl, rfl⟩
  | succ r ih =>
    intro idx count st st' t c h
    simp only [Base.download_loop] at h
    split at h
    · exact ih (idx + 1) (count + 1) st st' t c h
    · split at h
      · split at h
        · cases h
        · simp only [Except.ok.injEq, Prod.mk.injEq] at h
          rw [← h.2.1]
          exact ⟨rfl, rfl⟩
      · exact ih (idx + 1) (count + 1) st st' t c h

/-- `download_page` never touches `_url` or `url`. -/
theorem download_page_frame (attempts : Nat → Attempt) (st st' : BaseState)
    (t : String) (c : Nat) (h : Base.download_page attempts st = .ok (t, st', c)) :
    st'._url = st._url ∧ st'.url = st.url := by
  unfold Base.download_page at h
  cases hc : lookup_page st.pages st.url with
  | some cached =>
    rw [hc] at h
    simp only [Except.ok.injEq, Prod.mk.injEq] at h
    rw [← h.2.1]
    exact ⟨rfl, rfl⟩
  | none =>
    rw [hc] at h
    exact download_loop_frame attempts 5 0 0 st st' t c h

/-! Section: concrete fixtures -/

/-- Oracles returning trivial values (any concrete choice works: claims never
depend on the collaborator outputs). -/
def oracle0 : Oracles := ⟨fun _ => ""⟩

/-- A freshly constructed state with base URL "base/". -/
def state0 : BaseState := { _url := "base/", url := "base/", pages := [] }

/-- A main content container: `<div class="w3-main">`. -/
def main_div0 : Node := Node.tag "div" [("class", "w3-main")] []

/-- A well-formed page document containing the main container. -/
def good_doc : Node := Node.tag "html" [] [main_div0]

/-- A network that always answers with an ok response for `good_doc`. -/
def good_attempts : Nat → Attempt := fun _ => Attempt.got true "page1" good_doc

/-- A two-item unordered list with an item needing normalization. -/
def ul_ab : Node :=
  Node.tag "ul" [] [Node.tag "li" [] [Node.txt " a "], Node.tag "li" [] [Node.txt "b"]]

/-! Section: claims -/

/-- Claim C1, counterexample.  The exclusion set is claimed to include
"Report Error"; in the code the missing comma after "Examples" merged that
entry into "ExamplesReport Error", so a header whose text is exactly
"Report Error" is NOT excluded: `get_topic` returns a topic with one
segment for it, not an empty topic. -/
theorem C1_counterexample :
    "Report Error" ∉ EXCLUDE_TOPICS ∧
    Base.get_topic oracle0 state0 (Node.tag "h2" [] [Node.txt "Report Error"])
        [Node.tag "p" [] [Node.txt "x"]] =
      .ok (Topic.mk "Report Error" [{ text := "x", type := "p" }]) :=
  ⟨by decide, rfl⟩

/-- Claim C1, amended.  For every header whose text is in the static exclusion
set — which, because of the implicit string concatenation in the source, is
exactly {"Test Yourself With Exercises", "Exercise", "ExamplesReport Error",
"Thank You For Helping Us!"} and does not contain "Report Error" on its
own — `get_topic` produces the empty topic, containing zero segments. -/
theorem C1_amended (o : Oracles) (st : BaseState) (header : Node) (following : List Node)
    (h : header.text ∈ EXCLUDE_TOPICS) :
    Base.get_topic o st header following = .ok Topic.empty ∧
    (Base.get_topic o st header following).map Topic.segments = .ok [] ∧
    EXCLUDE_TOPICS =
      ["Test Yourself With Exercises", "Exercise", "ExamplesReport Error",
       "Thank You For Helping Us!"] := by
  have h1 : Base.get_topic o st header following = .ok Topic.empty := by
    simp [Base.get_topic, h]
  refine ⟨h1, ?_, by decide⟩
  rw [h1]
  rfl

/-- Claim C1, witness for the amended theorem, at the excluded header
"Exercise" followed by a paragraph sibling. -/
theorem C1_witness :
    Base.get_topic oracle0 state0 (Node.tag "h2" [] [Node.txt "Exercise"])
        [Node.tag "p" [] [Node.txt "x"]] = .ok Topic.empty :=
  (C1_amended oracle0 state0 (Node.tag "h2" [] [Node.txt "Exercise"])
    [Node.tag "p" [] [Node.txt "x"]] (by decide)).1

/-- Claim C2, counterexample.  After a construction whose every fetch attempt
fails, the fetcher does return the sentinel "<html></html>" (with all five
retries consumed) — but `soup`/`main_div` were never assigned, so extracting
headers from the resulting instance raises (`AttributeError`) instead of
yielding zero headers. -/
theorem C2_counterexample :
    Base.init "url0" (fun _ => Attempt.err) =
      .ok ({ _url := "url0", url := "url0", pages := [], soup := none, main_div := none,
             page := some "<html></html>" }, 5) ∧
    Base.get_headers
        { _url := "url0", url := "url0", pages := [], soup := none, main_div := none,
          page := some "<html></html>" } = .error "AttributeError: main_div" :=
  ⟨rfl, rfl⟩

/-- Claim C2, amended.  When every fetch attempt fails, the five retries are
exhausted and the fetcher returns the empty-document sentinel
"<html></html>" rather than failing; the sentinel document itself contains
zero h2 headers.  However, the instance attributes `soup`/`main_div` are
never assigned from the sentinel, so a subsequent `get_headers` call on the
freshly-constructed instance raises `AttributeError` instead of returning
zero headers. -/
theorem C2_amended (url : String) (attempts : Nat → Attempt)
    (h : ∀ i, attempts i = Attempt.err) :
    Base.init url attempts =
      .ok ({ _url := url, url := url, pages := [], soup := none, main_div := none,
             page := some "<html></html>" }, 5) ∧
    Base.get_headers
        { _url := url, url := url, pages := [], soup := none, main_div := none,
          page := some "<html></html>" } = .error "AttributeError: main_div" ∧
    find_all_desc (fun n => n.name == some "h2") (Node.tag "html" [] []) = [] := by
  refine ⟨?_, rfl, rfl⟩
  simp [Base.init, Base.download_page, lookup_page, Base._download_page,
    Base.download_loop, h]

/-- Claim C2, witness for the amended theorem, with the always-failing
network. -/
theorem C2_witness :
    Base.init "base/" (fun _ => Attempt.err) =
      .ok ({ _url := "base/", url := "base/", pages := [], soup := none, main_div := none,
             page := some "<html></html>" }, 5) ∧
    Base.get_headers
        { _url := "base/", url := "base/", pages := [], soup := none, main_div := none,
          page := some "<html></html>" } = .error "AttributeError: main_div" ∧
    find_all_desc (fun n => n.name == some "h2") (Node.tag "html" [] []) = [] :=
  C2_amended "base/" (fun _ => Attempt.err) (fun _ => rfl)

/-- Claim C3, counterexample.  For `<ul><li> a </li><li>b</li></ul>` the
text of the emitted segment is "\na\nb": each item is prefixed by a newline, so
the text is NOT the newline-joined concatenation "a\nb" of the normalized
items the claim describes (it carries an extra leading newline). -/
theorem C3_counterexample :
    Base.get_topic oracle0 state0 (Node.tag "h2" [] [Node.txt "Topic"]) [ul_ab] =
      .ok (Topic.mk "Topic" [{ text := "\na\nb", type := "ul" }]) ∧
    string_parse " a " ++ "\n" ++ string_parse "b" = "a\nb" ∧
    ("\na\nb" : String) ≠ "a\nb" :=
  ⟨rfl, by decide, by decide⟩

/-- Claim C3, amended.  For every ul or ol sibling, the emitted segment text
is the concatenation, in document order, of the individually-normalized
(stripped, br-replaced) text of each list item with a newline *prefixed* to
every item — i.e. a leading newline followed by the newline-joined items,
rather than the plain newline-joined concatenation. -/
theorem C3_amended (o : Oracles) (st : BaseState) (header : Node) (following : List Node)
    (nm : String) (attrs : List (String × String)) (cs : List Node)
    (hnm : nm = "ul" ∨ nm = "ol") (hex : header.text ∉ EXCLUDE_TOPICS) :
    Base.emit_segment o st._url (Node.tag nm attrs cs) =
      .ok (some { text := String.join ((find_all_desc (fun n => n.name == some "li")
                    (Node.tag nm attrs cs)).map (fun li => "\n" ++ string_parse li.text)),
                  type := nm, url := none, file := none }) ∧
    Base.get_topic o st header following =
      (Base.collect_segments o st._url (Base._get_all_h2_siblings following)).map
        (Topic.mk header.text) := by
  refine ⟨?_, get_topic_eq o st following hex⟩
  rcases hnm with rfl | rfl <;>
    simp [Base.emit_segment, Base.sib_payload, empty_payload, Node.name, Segment.mk.injEq]

/-- Claim C3, witness for the amended theorem, at the two-item list fixture. -/
theorem C3_witness :
    Base.emit_segment oracle0 state0._url ul_ab =
      .ok (some { text := String.join ((find_all_desc (fun n => n.name == some "li") ul_ab).map
                    (fun li => "\n" ++ string_parse li.text)),
                  type := "ul", url := none, file := none }) ∧
    Base.get_topic oracle0 state0 (Node.tag "h2" [] [Node.txt "Topic"]) [ul_ab] =
      (Base.collect_segments oracle0 state0._url (Base._get_all_h2_siblings [ul_ab])).map
        (Topic.mk (Node.tag "h2" [] [Node.txt "Topic"]).text) :=
  C3_amended oracle0 state0 (Node.tag "h2" [] [Node.txt "Topic"]) [ul_ab] "ul" []
    [Node.tag "li" [] [Node.txt " a "], Node.tag "li" [] [Node.txt "b"]]
    (Or.inl rfl) (by decide)

/-- Computation rule for `Node.name` on elements (keeps `simp` from
unfolding `Node.name` under predicate binders). -/
@[simp] theorem Node.name_tag (nm : String) (attrs : List (String × String))
    (cs : List Node) : Node.name (Node.tag nm attrs cs) = some nm := rfl

/-- A code block with a `br` element, nested in a `w3-example` div. -/
def code_div : Node :=
  Node.tag "div" [("class", "w3-code notranslate pythonHigh")]
    [Node.txt "x = 1", Node.tag "br" [] [], Node.txt "y = 2"]

/-- A `<div class="w3-example">` element containing `code_div`. -/
def div_example : Node := Node.tag "div" [("class", "w3-example")] [code_div]

/-- Claim C4, counterexample.  A one-item unordered list produces the
text-bearing segment "\nc", which still carries leading whitespace: the
claimed normalization (stripping, applied to every text-bearing segment) is
not applied to the final text of list segments. -/
theorem C4_counterexample :
    Base.get_topic oracle0 state0 (Node.tag "h2" [] [Node.txt "Topic"])
        [Node.tag "ul" [] [Node.tag "li" [] [Node.txt "c"]]] =
      .ok (Topic.mk "Topic" [{ text := "\nc", type := "ul" }]) ∧
    py_strip "\nc" ≠ "\nc" ∧
    string_parse "\nc" ≠ "\nc" :=
  ⟨rfl, by decide, by decide⟩

/-- Claim C4, amended.  The strip-and-replace normalization is applied to
the text of every paragraph-derived segment — whether it stays kind "p" or
is reclassified as "img", its text is `string_parse` of the element text —
and to panel and code segments (for code, after the br-to-newline
pre-pass); list segments receive it only per item, with an unstripped
newline prefixed to each; table segments carry the table-conversion output
with no normalization applied; and a class-less div never yields a
text-bearing segment at all, because the `to_image` call on it raises
`TypeError` (missing required keyword-only `filename`), aborting the
extraction. -/
theorem C4_amended (o : Oracles) (u : String) :
    (∀ attrs cs, find_desc (fun n => n.name == some "img") (Node.tag "p" attrs cs) = none →
      Base.emit_segment o u (Node.tag "p" attrs cs) =
        .ok (some { text := string_parse (Node.tag "p" attrs cs).text, type := "p",
                    url := none, file := none })) ∧
    (∀ attrs cs, ∃ seg,
      Base.emit_segment o u (Node.tag "p" attrs cs) = .ok (some seg) ∧
      seg.text = string_parse (Node.tag "p" attrs cs).text ∧
      (seg.type = "p" ∨ seg.type = "img")) ∧
    (∀ attrs cs, has_attr (Node.tag "div" attrs cs) "class" = true →
      "w3-clear" ∉ class_list (Node.tag "div" attrs cs) →
      "w3-panel" ∈ class_list (Node.tag "div" attrs cs) →
      Base.emit_segment o u (Node.tag "div" attrs cs) =
        .ok (some { text := string_parse (Node.tag "div" attrs cs).text, type := "panel",
                    url := none, file := none })) ∧
    (∀ attrs cs internal, has_attr (Node.tag "div" attrs cs) "class" = true →
      "w3-clear" ∉ class_list (Node.tag "div" attrs cs) →
      "w3-panel" ∉ class_list (Node.tag "div" attrs cs) →
      "w3-example" ∈ class_list (Node.tag "div" attrs cs) →
      find_desc (fun n => n.name == some "div" && matches_class_filter n "w3-code")
          (Node.tag "div" attrs cs) = some internal →
      Base.emit_segment o u (Node.tag "div" attrs cs) =
        .ok (some { text := string_parse (text_br internal), type := "code",
                    url := none, file := none })) ∧
    (∀ attrs cs, Base.emit_segment o u (Node.tag "table" attrs cs) =
        .ok (some { text := o.convert_tables_str (Node.tag "table" attrs cs), type := "table",
                    url := none, file := none })) ∧
    (∀ attrs cs, has_attr (Node.tag "div" attrs cs) "class" = false →
      Base.emit_segment o u (Node.tag "div" attrs cs) =
        .error "TypeError: to_image missing required keyword-only argument filename") := by
  refine ⟨?_, ?_, ?_, ?_, ?_, ?_⟩
  · intro attrs cs h
    simp [Base.emit_segment, Base.sib_payload, h, empty_payload, Segment.mk.injEq]
  · intro attrs cs
    cases himg : find_desc (fun n => n.name == some "img") (Node.tag "p" attrs cs) with
    | none =>
      refine ⟨{ text := string_parse (Node.tag "p" attrs cs).text, type := "p" }, ?_,
        rfl, Or.inl rfl⟩
      simp [Base.emit_segment, Base.sib_payload, himg, empty_payload, Segment.mk.injEq]
    | some img =>
      cases hsrc : get_attr img "src" with
      | none =>
        refine ⟨{ text := string_parse (Node.tag "p" attrs cs).text, type := "p" }, ?_,
          rfl, Or.inl rfl⟩
        simp [Base.emit_segment, Base.sib_payload, himg, hsrc, empty_payload, Segment.mk.injEq]
      | some src =>
        by_cases ht : (Node.tag "p" attrs cs).text = ""
        · refine ⟨{ text := string_parse (Node.tag "p" attrs cs).text, type := "img",
                    url := some (u ++ src) }, ?_, rfl, Or.inr rfl⟩
          simp [Base.emit_segment, Base.sib_payload, himg, hsrc, ht, empty_payload,
            Segment.mk.injEq]
        · refine ⟨{ text := string_parse (Node.tag "p" attrs cs).text, type := "img" }, ?_,
            rfl, Or.inr rfl⟩
          simp [Base.emit_segment, Base.sib_payload, himg, hsrc, ht, empty_payload,
            Segment.mk.injEq]
  · intro attrs cs h1 h2 h3
    simp [Base.emit_segment, Base.sib_payload, h1, h2, h3, empty_payload, Segment.mk.injEq]
  · intro attrs cs internal h1 h2 h3 h4 h5
    simp [Base.emit_segment, Base.sib_payload, h1, h2, h3, h4, h5, empty_payload,
      Segment.mk.injEq]
  · intro attrs cs
    simp [Base.emit_segment, Base.sib_payload, empty_payload, Segment.mk.injEq]
  · intro attrs cs h
    simp [Base.emit_segment, Base.sib_payload, h]

/-- Claim C4, witness for the amended theorem: a paragraph, an image-only
paragraph (reclassified, text still normalized), a panel, a code example, a
table and a class-less div (which raises), each at a concrete fixture. -/
theorem C4_witness :
    Base.emit_segment oracle0 "base/" (Node.tag "p" [] [Node.txt " Hi <br>there "]) =
      .ok (some { text := string_parse (Node.tag "p" [] [Node.txt " Hi <br>there "]).text,
                  type := "p", url := none, file := none }) ∧
    Base.emit_segment oracle0 "base/"
        (Node.tag "div" [("class", "w3-panel w3-info")] [Node.txt " note "]) =
      .ok (some { text := string_parse
                      (Node.tag "div" [("class", "w3-panel w3-info")] [Node.txt " note "]).text,
                  type := "panel", url := none, file := none }) ∧
    Base.emit_segment oracle0 "base/" div_example =
      .ok (some { text := string_parse (text_br code_div), type := "code",
                  url := none, file := none }) ∧
    Base.emit_segment oracle0 "base/" (Node.tag "table" [] []) =
      .ok (some { text := oracle0.convert_tables_str (Node.tag "table" [] []),
                  type := "table", url := none, file := none }) ∧
    Base.emit_segment oracle0 "base/" (Node.tag "div" [] [Node.txt "bare"]) =
      .error "TypeError: to_image missing required keyword-only argument filename" :=
  ⟨(C4_amended oracle0 "base/").1 [] [Node.txt " Hi <br>there "] rfl,
   (C4_amended oracle0 "base/").2.2.1 [("class", "w3-panel w3-info")] [Node.txt " note "]
     rfl (by decide) (by decide),
   (C4_amended oracle0 "base/").2.2.2.1 [("class", "w3-example")] [code_div] code_div
     rfl (by decide) (by decide) (by decide) rfl,
   (C4_amended oracle0 "base/").2.2.2.2.1 [] [],
   (C4_amended oracle0 "base/").2.2.2.2.2 [] [Node.txt "bare"] rfl⟩

/-- Claim C5, counterexample.  The cache is per-instance, not process-wide:
after one instance fetches and caches URL "u" (first conjunct: its own
`pages` holds the entry and only one request was made), a second instance
constructed for the same URL starts with an empty cache and issues five
fresh network requests, all failing, ending at the sentinel — the cache of the first
instance is never consulted. -/
theorem C5_counterexample :
    Base.init "u" good_attempts =
      .ok ({ _url := "u", url := "u", pages := [("u", good_doc)], soup := some good_doc,
             main_div := some main_div0, page := some "page1" }, 1) ∧
    Base.init "u" (fun _ => Attempt.err) =
      .ok ({ _url := "u", url := "u", pages := [], soup := none, main_div := none,
             page := some "<html></html>" }, 5) :=
  ⟨rfl, rfl⟩

/-- Claim C5, amended.  Within one instance, parsed pages are cached by URL in
the instance-local mapping, populated on first fetch: every `download_page` call
consults the cache before any re-fetch, and a cached entry for the current
URL is returned (prettified, with `soup` updated) with zero network
requests issued. -/
theorem C5_amended (attempts : Nat → Attempt) (st : BaseState) (d : Node)
    (h : lookup_page st.pages st.url = some d) :
    Base.download_page attempts st = .ok (prettify d, { st with soup := some d }, 0) := by
  simp [Base.download_page, h]

/-- A state whose instance cache already holds its current URL. -/
def cached_state : BaseState := { _url := "u", url := "u", pages := [("u", good_doc)] }

/-- Claim C5, witness for the amended theorem: with the page cached, even an
always-failing network is never consulted. -/
theorem C5_witness :
    Base.download_page (fun _ => Attempt.err) cached_state =
      .ok (prettify good_doc, { cached_state with soup := some good_doc }, 0) :=
  C5_amended (fun _ => Attempt.err) cached_state good_doc rfl

/-- Claim C6.  Sibling traversal stops at the first horizontal-rule sibling
(or end of list): the collected chain, and hence the whole topic, is
unchanged by whatever follows the first hr, and every collected sibling
comes from the part of the chain before the hr. -/
theorem C6_theorem (o : Oracles) (st : BaseState) (header : Node)
    (l1 l2 : List Node) (attrs : List (String × String)) (cs : List Node)
    (h : ∀ n ∈ l1, n.name ≠ some "hr") :
    Base._get_all_h2_siblings (l1 ++ Node.tag "hr" attrs cs :: l2) =
      Base._get_all_h2_siblings l1 ∧
    Base.get_topic o st header (l1 ++ Node.tag "hr" attrs cs :: l2) =
      Base.get_topic o st header l1 ∧
    (∀ n ∈ Base._get_all_h2_siblings (l1 ++ Node.tag "hr" attrs cs :: l2), n ∈ l1) := by
  have h1 := all_h2_siblings_append_hr l1 l2 attrs cs h
  refine ⟨h1, ?_, ?_⟩
  · simp only [Base.get_topic, h1]
  · intro n hn
    rw [h1] at hn
    exact mem_of_mem_all_h2_siblings l1 n hn

/-- A paragraph sibling before the separator. -/
def p_x : Node := Node.tag "p" [] [Node.txt "x"]

/-- A paragraph sibling positioned after the separator. -/
def p_y : Node := Node.tag "p" [] [Node.txt "y"]

/-- Claim C6, witness: one paragraph, a horizontal rule, then another
paragraph — the trailing paragraph contributes nothing. -/
theorem C6_witness :
    Base._get_all_h2_siblings ([p_x] ++ Node.tag "hr" [] [] :: [p_y]) =
      Base._get_all_h2_siblings [p_x] ∧
    Base.get_topic oracle0 state0 (Node.tag "h2" [] [Node.txt "Topic"])
        ([p_x] ++ Node.tag "hr" [] [] :: [p_y]) =
      Base.get_topic oracle0 state0 (Node.tag "h2" [] [Node.txt "Topic"]) [p_x] :=
  have h := C6_theorem oracle0 state0 (Node.tag "h2" [] [Node.txt "Topic"]) [p_x] [p_y] [] []
    (by
      intro n hn
      rcases List.mem_singleton.mp hn with rfl
      decide)
  ⟨h.1, h.2.1⟩

/-- A paragraph sibling whose only content is an image carrying a `src`
attribute. -/
def p_img : Node :=
  Node.tag "p" [] [Node.tag "img" [("src", "images/img_chania.jpg")] []]

/-- For a `p` sibling containing an image with a `src` attribute and no text
at all, the classifier reclassifies the payload as an image segment whose
URL is the base URL concatenated with the image `src`. -/
theorem emit_segment_p_img (o : Oracles) (u : String) (attrs : List (String × String))
    (cs : List Node) (img : Node) (src : String)
    (himg : find_desc (fun n => n.name == some "img") (Node.tag "p" attrs cs) = some img)
    (hsrc : get_attr img "src" = some src)
    (htxt : (Node.tag "p" attrs cs).text = "") :
    Base.emit_segment o u (Node.tag "p" attrs cs) =
      .ok (some { text := string_parse "", type := "img", url := some (u ++ src),
                  file := none }) := by
  simp [Base.emit_segment, Base.sib_payload, himg, hsrc, htxt, empty_payload, Segment.mk.injEq]

/-- Claim C7.  A `p` sibling containing an image with a `src` attribute and no
other text yields a segment of kind "img" (not "p") whose URL is the base
URL concatenated with the image `src`; and for a non-excluded header the
topic segments are exactly the emitted ones, so the segment of such a
sibling appears as stated. -/
theorem C7_theorem (o : Oracles) (st : BaseState) (attrs : List (String × String))
    (cs : List Node) (img : Node) (src : String)
    (himg : find_desc (fun n => n.name == some "img") (Node.tag "p" attrs cs) = some img)
    (hsrc : get_attr img "src" = some src)
    (htxt : (Node.tag "p" attrs cs).text = "") :
    Base.emit_segment o st._url (Node.tag "p" attrs cs) =
      .ok (some { text := string_parse "", type := "img", url := some (st._url ++ src),
                  file := none }) ∧
    ∀ header following, header.text ∉ EXCLUDE_TOPICS →
      Base.get_topic o st header following =
        (Base.collect_segments o st._url (Base._get_all_h2_siblings following)).map
          (Topic.mk header.text) :=
  ⟨emit_segment_p_img o st._url attrs cs img src himg hsrc htxt,
   fun _ following hex => get_topic_eq o st following hex⟩

/-- Claim C7, witness at a concrete image-only paragraph. -/
theorem C7_witness :
    Base.emit_segment oracle0 state0._url p_img =
      .ok (some { text := string_parse "", type := "img",
                  url := some (state0._url ++ "images/img_chania.jpg"), file := none }) :=
  (C7_theorem oracle0 state0 [] [Node.tag "img" [("src", "images/img_chania.jpg")] []]
    (Node.tag "img" [("src", "images/img_chania.jpg")] []) "images/img_chania.jpg"
    rfl rfl rfl).1

/-- Claim C8.  Whenever the retry loop processes an ok response whose
document has no `div` with class "w3-main", it raises (`RuntimeError`,
modelled as an error result) and extraction for that page is aborted, never
silently skipped; in particular a cache-missing `download_page` whose first
attempt yields such a document errors out. -/
theorem C8_theorem (attempts : Nat → Attempt) (st : BaseState) (text : String) (doc : Node)
    (hmd : find_desc (fun n => n.name == some Navigator.MAIN_TG &&
             matches_class_filter n Navigator.MAIN) doc = none) :
    (∀ idx retry count, attempts idx = Attempt.got true text doc →
      Base.download_loop attempts idx (retry + 1) st count =
        .error "failed to find main div") ∧
    (lookup_page st.pages st.url = none → attempts 0 = Attempt.got true text doc →
      Base.download_page attempts st = .error "failed to find main div") := by
  constructor
  · intro idx retry count h
    simp [Base.download_loop, h, hmd]
  · intro hc h0
    simp [Base.download_page, hc, Base._download_page, Base.download_loop, h0, hmd]

/-- A successfully fetched document that lacks the main container. -/
def no_main_doc : Node := Node.tag "html" [] [Node.tag "div" [("class", "w3-other")] []]

/-- Claim C8, witness at a concrete container-less document. -/
theorem C8_witness :
    Base.download_loop (fun _ => Attempt.got true "content" no_main_doc) 2 3 state0 2 =
      .error "failed to find main div" ∧
    Base.download_page (fun _ => Attempt.got true "content" no_main_doc) state0 =
      .error "failed to find main div" :=
  have h := C8_theorem (fun _ => Attempt.got true "content" no_main_doc) state0 "content"
    no_main_doc rfl
  ⟨h.1 2 2 2 rfl, h.2 rfl rfl⟩

/-- Claim C9.  A sibling contributes a segment only when its classified
payload differs from the blank default, so no blank records ever appear in
any successfully produced topic; in particular a div whose class list
contains "w3-clear", a div with an unrecognized class, and a sibling with an
unrecognized tag name all contribute nothing. -/
theorem C9_theorem (o : Oracles) (st : BaseState) :
    (∀ header following topic seg,
      Base.get_topic o st header following = .ok topic →
      seg ∈ topic.segments → seg ≠ empty_payload) ∧
    (∀ attrs cs, has_attr (Node.tag "div" attrs cs) "class" = true →
      "w3-clear" ∈ class_list (Node.tag "div" attrs cs) →
      Base.emit_segment o st._url (Node.tag "div" attrs cs) = .ok none) ∧
    (∀ attrs cs, has_attr (Node.tag "div" attrs cs) "class" = true →
      "w3-clear" ∉ class_list (Node.tag "div" attrs cs) →
      "w3-panel" ∉ class_list (Node.tag "div" attrs cs) →
      "w3-example" ∉ class_list (Node.tag "div" attrs cs) →
      Base.emit_segment o st._url (Node.tag "div" attrs cs) = .ok none) ∧
    (∀ nm attrs cs, nm ≠ "p" → nm ≠ "ul" → nm ≠ "ol" → nm ≠ "div" → nm ≠ "table" →
      Base.emit_segment o st._url (Node.tag nm attrs cs) = .ok none) := by
  refine ⟨?_, ?_, ?_, ?_⟩
  · intro header following topic seg hget hseg
    by_cases hx : header.text ∈ EXCLUDE_TOPICS
    · have hempty : topic = Topic.empty := by
        simp [Base.get_topic, hx] at hget
        exact hget.symm
      subst hempty
      simp [Topic.segments] at hseg
    · rw [get_topic_eq o st following hx] at hget
      cases hc : Base.collect_segments o st._url (Base._get_all_h2_siblings following) with
      | error e => rw [hc] at hget; simp [Except.map] at hget
      | ok segs =>
        rw [hc] at hget
        simp only [Except.map, Except.ok.injEq] at hget
        subst hget
        obtain ⟨sib, -, hemit⟩ :=
          collect_segments_mem o st._url (Base._get_all_h2_siblings following) segs hc seg hseg
        exact emit_segment_ne_empty o st._url sib seg hemit
  · intro attrs cs h1 h2
    simp [Base.emit_segment, Base.sib_payload, h1, h2]
  · intro attrs cs h1 h2 h3 h4
    simp [Base.emit_segment, Base.sib_payload, h1, h2, h3, h4, empty_payload]
  · intro nm attrs cs h1 h2 h3 h4 h5
    simp [Base.emit_segment, Base.sib_payload, h1, h2, h3, h4, h5, empty_payload]

/-- Claim C9, witness: a concrete emitted segment is non-blank, and a
"w3-clear" div, an unrecognized-class div and an unrecognized tag each
contribute no segment. -/
theorem C9_witness :
    ({ text := "x", type := "p", url := none, file := none } : Segment) ≠ empty_payload ∧
    Base.emit_segment oracle0 state0._url (Node.tag "div" [("class", "w3-clear")] []) =
      .ok none ∧
    Base.emit_segment oracle0 state0._url (Node.tag "div" [("class", "w3-unknown")] []) =
      .ok none ∧
    Base.emit_segment oracle0 state0._url (Node.tag "span" [] [Node.txt "x"]) = .ok none :=
  ⟨(C9_theorem oracle0 state0).1 (Node.tag "h2" [] [Node.txt "Topic"]) [p_x]
      (Topic.mk "Topic" [{ text := "x", type := "p", url := none, file := none }])
      { text := "x", type := "p", url := none, file := none } rfl (by decide),
   (C9_theorem oracle0 state0).2.1 [("class", "w3-clear")] [] rfl (by decide),
   (C9_theorem oracle0 state0).2.2.1 [("class", "w3-unknown")] [] rfl
     (by decide) (by decide) (by decide),
   (C9_theorem oracle0 state0).2.2.2 "span" [] [Node.txt "x"]
     (by decide) (by decide) (by decide) (by decide) (by decide)⟩

/-- The "Next" anchor (`<a class="w3-right w3-btn" href=...>`). -/
def next_anchor : Node :=
  Node.tag "a" [("class", "w3-right w3-btn"), ("href", "python_intro.asp")] [Node.txt "Next >"]

/-- A main container holding a "Next" anchor. -/
def nav_main_div : Node := Node.tag "div" [("class", "w3-main")] [next_anchor]

/-- A state that already navigated away from the base URL and whose
container offers a "Next" button. -/
def nav_state : BaseState :=
  { _url := "base/", url := "base/page2.asp", pages := [], main_div := some nav_main_div }

/-- The state reached from `nav_state` by `paginate_next` with
`good_attempts`. -/
def next_state : BaseState :=
  { _url := "base/", url := "base/python_intro.asp",
    pages := [("base/python_intro.asp", good_doc)], soup := some good_doc,
    main_div := some main_div0, page := some "page1" }

/-- Claim C10.  Pagination and page downloads never touch the original
constructor-supplied base URL `_url` (nor does a download change the current
`url`); every next/previous URL is the endpoint concatenated onto `_url`,
and the URL of an image segment is the image `src` concatenated onto the
`_url` the classifier receives — never onto the current `url`. -/
theorem C10_theorem (o : Oracles) (attempts : Nat → Attempt) (st st' : BaseState)
    (c : Nat) (t u : String) :
    (Base.paginate_next attempts st = .ok (st', c) → st'._url = st._url) ∧
    (Base.paginate_prev attempts st = .ok (st', c) → st'._url = st._url) ∧
    (Base.download_page attempts st = .ok (t, st', c) →
      st'._url = st._url ∧ st'.url = st.url) ∧
    (Base.get_next_button_url st = .ok (some u) →
      ∃ ep, Base._get_button_endpoint st Navigator.NEXT "Next" = .ok (some ep) ∧
        u = st._url ++ ep) ∧
    (Base.get_previous_button_url st = .ok (some u) →
      ∃ ep, Base._get_button_endpoint st Navigator.PREVIOUS "Previous" = .ok (some ep) ∧
        u = st._url ++ ep) ∧
    (∀ attrs cs img src,
      find_desc (fun n => n.name == some "img") (Node.tag "p" attrs cs) = some img →
      get_attr img "src" = some src →
      (Node.tag "p" attrs cs).text = "" →
      Base.emit_segment o st._url (Node.tag "p" attrs cs) =
        .ok (some { text := string_parse "", type := "img", url := some (st._url ++ src),
                    file := none })) := by
  have hpag : ∀ (bu : Except String (Option String)),
      Base._paginate attempts st bu = .ok (st', c) → st'._url = st._url := by
    intro bu h
    simp only [Base._paginate] at h
    split at h
    · cases h
    · cases h
    · rename_i u'
      split at h
      · cases h
      · rename_i text2 st2 c2 heq
        simp only [Except.ok.injEq, Prod.mk.injEq] at h
        have hf := download_page_frame attempts { st with url := u' } st2 text2 c2 heq
        calc st'._url = st2._url := by rw [← h.1]
          _ = st._url := hf.1
  refine ⟨fun h => hpag _ h, fun h => hpag _ h,
    fun h => download_page_frame attempts st st' t c h, ?_, ?_, ?_⟩
  · intro h
    simp only [Base.get_next_button_url] at h
    split at h
    · cases h
    · simp at h
    · rename_i ep heq
      simp only [Except.ok.injEq, Option.some.injEq] at h
      exact ⟨ep, heq, h.symm⟩
  · intro h
    simp only [Base.get_previous_button_url] at h
    split at h
    · cases h
    · simp at h
    · rename_i ep heq
      simp only [Except.ok.injEq, Option.some.injEq] at h
      exact ⟨ep, heq, h.symm⟩
  · intro attrs cs img src himg hsrc htxt
    exact emit_segment_p_img o st._url attrs cs img src himg hsrc htxt

/-- Claim C10, witness: a concrete `paginate_next` run leaves `_url` at the
original base URL even though the current `url` moved twice away from it. -/
theorem C10_witness : next_state._url = nav_state._url :=
  (C10_theorem oracle0 good_attempts nav_state next_state 1 "" "").1 rfl
